import Mathlib

/-!
Shallow embedding of the OpenTurbofanArchitecting architecture layer
(`open_turb_arch/architecture/architecture.py`,
`open_turb_arch/evaluation/architecture/flow.py`,
`open_turb_arch/evaluation/architecture/turbomachinery.py`).

Python objects are modelled as Lean structures carrying an explicit `id : Nat`
field standing for the CPython object identity (`id(self)`); distinct live
instances have distinct identities.  Python `float` fields are modelled as `ℚ`
(the code only stores and compares them, never computes with them).  References
to other elements (`target`, `source`, shaft back-references) are modelled as
`ElemRef` values (identity plus display name), matching the fact that the code
only ever reads `.name` off such references.  The mutable pyCycle containers
become explicit state records, and functions that can `raise` return `Except`
carrying the container state at the moment the exception is raised (Python
exceptions do not roll back prior mutations).
-/

namespace OpenTurbArch

/-- The structural errors the architecture layer raises (`ValueError` in the
Python source, distinguished here by their message). -/
inductive ArchError where
  /-- `'Not connected to shaft: %r'` from `Compressor.add_element` /
  `Turbine.add_element`. -/
  | unboundTurbomachinery
  /-- `'Shaft already set: %r'` from `Shaft.__post_init__`. -/
  | duplicateShaftBinding
  /-- `'Shaft should at least connect two turbomachinery elements!'` from
  `Shaft.add_element`. -/
  | invalidShaftTopology
  deriving DecidableEq, Repr

/-- A reference to another architecture element: its object identity plus the
display name, which is all the code reads off a `target`/`source`/shaft
reference. -/
structure ElemRef where
  id : Nat
  name : String
  deriving DecidableEq, Repr

/-- One `pyc_connect_flow` call: source port path, destination port path and
the two keyword flags (both default `True` in pyCycle). -/
structure FlowConn where
  src : String
  dst : String
  connect_w : Bool := true
  connect_stat : Bool := true
  deriving DecidableEq, Repr

/-- The data `pyc_add_element` registers for one sub-model: which pyCycle class
was instantiated and the constructor arguments the elements pass
(map selection, design flag, air-mix choice, statics flag, bleed port names,
nozzle type, fuel type, and for `pyc.Shaft` the number of torque ports). -/
structure PycModule where
  kind : String
  mapData : String := ""
  design : Bool := true
  elements : String := ""
  statics : Bool := true
  bleedNames : List String := []
  nozzType : String := ""
  fuelType : String := ""
  numPorts : Nat := 0
  deriving DecidableEq, Repr

/-- The mutable pyCycle `Cycle` container: registered modules by element name,
promoted-input aliases, flow connections, direct named connections and scoped
input defaults. -/
structure Cycle where
  modules : List (String × PycModule) := []
  promotes : List (String × String × String) := []
  flows : List FlowConn := []
  conns : List (String × String) := []
  inputDefaults : List (String × ℚ) := []
  deriving DecidableEq, Repr

/-- `cycle.pyc_add_element(name, el, promotes_inputs=...)`. -/
def Cycle.addModule (cy : Cycle) (name : String) (m : PycModule)
    (promotes : List (String × String) := []) : Cycle :=
  { cy with
    modules := (name, m) :: cy.modules
    promotes := (promotes.map fun p => (name, p.1, p.2)) ++ cy.promotes }

/-- `cycle.pyc_connect_flow(src, dst, ...)`. -/
def Cycle.addFlow (cy : Cycle) (f : FlowConn) : Cycle :=
  { cy with flows := f :: cy.flows }

/-- `cycle.connect(src, dst)`. -/
def Cycle.addConn (cy : Cycle) (src dst : String) : Cycle :=
  { cy with conns := (src, dst) :: cy.conns }

/-- `el.set_input_defaults(key, v)` / `cycle.set_input_defaults(key, v)`,
with the key already fully scoped. -/
def Cycle.setInputDefault (cy : Cycle) (key : String) (v : ℚ) : Cycle :=
  { cy with inputDefaults := (key, v) :: cy.inputDefaults }

/-- Python `'%s' % x` applied to an optional string: `None` formats as the
literal text `"None"`. -/
def pyStr : Option String → String
  | none => "None"
  | some s => s

/-- `ArchElement._connect_flow_target`: when `target` is `None` nothing
happens (no edge, no error), otherwise one flow edge
`<self>.<out_flow> -> <target>.<in_flow>` is declared on the cycle. -/
def connect_flow_target (cy : Cycle) (selfName : String) (target : Option ElemRef)
    (out_flow : String := "Fl_O") (in_flow : String := "Fl_I") : Cycle :=
  match target with
  | none => cy
  | some t => cy.addFlow { src := selfName ++ "." ++ out_flow, dst := t.name ++ "." ++ in_flow }

/-- The pyCycle `MPCycle` multi-point container: named cycle parameters and
design/off-design equality links, in declaration order. -/
structure MPCycle where
  cycleParams : List (String × ℚ) := []
  desOdLinks : List (String × String) := []
  deriving DecidableEq, Repr

/-- `mp_cycle.pyc_add_cycle_param(name, v)`. -/
def MPCycle.addCycleParam (mp : MPCycle) (name : String) (v : ℚ) : MPCycle :=
  { mp with cycleParams := mp.cycleParams ++ [(name, v)] }

/-- `mp_cycle.pyc_connect_des_od(des, od)`. -/
def MPCycle.connectDesOd (mp : MPCycle) (des od : String) : MPCycle :=
  { mp with desOdLinks := mp.desOdLinks ++ [(des, od)] }

/-- An `om.Problem` as seen through `problem.set_val(path, v)`. -/
structure Problem where
  vals : List (String × ℚ) := []
  deriving DecidableEq, Repr

/-- `problem.set_val(path, v)`. -/
def Problem.setVal (p : Problem) (path : String) (v : ℚ) : Problem :=
  { p with vals := p.vals ++ [(path, v)] }

/-! ## The base classes (`architecture.py`)

`ArchElement` is a `@dataclass(frozen=False)` with field `name` and an
explicit `__hash__` returning `id(self)`.  Because `eq` defaults to `True`,
the decorator generates a value-based `__eq__` comparing the field tuple;
the explicit `__hash__` in the class body survives.  -/

/-- The `ArchElement` base class itself: object identity plus its single
dataclass field `name`. -/
structure ArchElement where
  id : Nat
  name : String
  deriving DecidableEq, Repr

/-- `ArchElement.__hash__`: `return id(self)` — never derived from fields. -/
def ArchElement.pyHash (a : ArchElement) : Nat := a.id

/-- The dataclass-generated `ArchElement.__eq__`: compares the field tuple
`(name,)` of two instances of the same class; identity plays no part. -/
def ArchElement.pyEq (a b : ArchElement) : Bool := a.name == b.name

/-- `TurbofanArchitecture`: a `@dataclass(frozen=False)` holding the element
list, with explicit `__eq__` and `__hash__`. The elements are referenced here
by their identities. -/
structure TurbofanArchitecture where
  id : Nat
  elements : List Nat := []
  deriving DecidableEq, Repr

/-- `TurbofanArchitecture.__hash__`: `return id(self)`. -/
def TurbofanArchitecture.pyHash (a : TurbofanArchitecture) : Nat := a.id

/-- `TurbofanArchitecture.__eq__`: `return hash(self) == hash(other)` —
the element list is never consulted. -/
def TurbofanArchitecture.pyEq (a b : TurbofanArchitecture) : Bool :=
  a.pyHash == b.pyHash

/-! ## Flow-path elements (`flow.py`) -/

/-- `Inlet`: dataclass fields `name, target, mach, p_recovery` plus the
object identity. -/
structure Inlet where
  id : Nat
  name : String
  target : Option ElemRef := none
  mach : ℚ := 3/5
  p_recovery : ℚ := 1
  deriving DecidableEq, Repr

/-- The dataclass-generated `Inlet.__eq__`: compares the field tuple
`(name, target, mach, p_recovery)`; identity plays no part.  Target
references are compared as references (identical references compare equal,
as in Python). -/
def Inlet.pyEq (a b : Inlet) : Bool :=
  a.name == b.name && a.target == b.target && a.mach == b.mach
    && a.p_recovery == b.p_recovery

/-- `Inlet.__hash__`: the `@dataclass` decorator on a subclass with `eq=True`,
`frozen=False` and no explicit `__hash__` in its own body sets
`__hash__ = None`, so `hash()` on an `Inlet` instance raises `TypeError`;
modelled as `none`.  In particular the hash is never derived from the field
contents. -/
def Inlet.pyHash (_ : Inlet) : Option Nat := none

/-- `Inlet.add_element`: registers a `pyc.Inlet` under the element's name and,
in design mode, seeds the reference Mach default. -/
def Inlet.add_element (i : Inlet) (cy : Cycle) (design : Bool) : Cycle :=
  let cy1 := cy.addModule i.name { kind := "Inlet", design := design, elements := "AIR_ELEMENTS" }
  if design then cy1.setInputDefault (i.name ++ ".MN") i.mach else cy1

/-- `Inlet.connect`: the free-stream edge `fc.Fl_O -> <name>.Fl_I`
(with `connect_w=False`), then the target edge via
`_connect_flow_target`. -/
def Inlet.connect (i : Inlet) (cy : Cycle) : Cycle :=
  connect_flow_target
    (cy.addFlow { src := "fc.Fl_O", dst := i.name ++ ".Fl_I", connect_w := false })
    i.name i.target

/-- `Inlet.add_cycle_params`: the ram-recovery parameter. -/
def Inlet.add_cycle_params (i : Inlet) (mp : MPCycle) : MPCycle :=
  mp.addCycleParam (i.name ++ ".ram_recovery") i.p_recovery

/-- `Inlet.connect_des_od`: design exit area to off-design fixed area. -/
def Inlet.connect_des_od (i : Inlet) (mp : MPCycle) : MPCycle :=
  mp.connectDesOd (i.name ++ ".Fl_O:stat:area") (i.name ++ ".area")

/-- `Duct`: dataclass fields `name, target, mach, p_loss_frac, fuel_in_air,
statics, design` plus the object identity. -/
structure Duct where
  id : Nat
  name : String
  target : Option ElemRef := none
  mach : ℚ := 3/10
  p_loss_frac : ℚ := 0
  fuel_in_air : Bool := false
  statics : Bool := true
  design : Bool := true
  deriving DecidableEq, Repr

/-- `Duct.add_element`: registers a `pyc.Duct` (air mix chosen by
`fuel_in_air`, statics flag passed through). -/
def Duct.add_element (d : Duct) (cy : Cycle) (design : Bool) : Cycle :=
  cy.addModule d.name
    { kind := "Duct", design := design
      elements := if d.fuel_in_air then "AIR_FUEL_ELEMENTS" else "AIR_ELEMENTS"
      statics := d.statics }

/-- `Duct.connect`: only the target edge via `_connect_flow_target`. -/
def Duct.connect (d : Duct) (cy : Cycle) : Cycle :=
  connect_flow_target cy d.name d.target

/-- `Duct.connect_des_od`: design exit area to off-design fixed area. -/
def Duct.connect_des_od (d : Duct) (mp : MPCycle) : MPCycle :=
  mp.connectDesOd (d.name ++ ".Fl_O:stat:area") (d.name ++ ".area")

/-- `Splitter`: dataclass fields `name, target_core, target_bypass, bpr,
core_mach, bypass_mach` plus the object identity. -/
structure Splitter where
  id : Nat
  name : String
  target_core : Option ElemRef := none
  target_bypass : Option ElemRef := none
  bpr : ℚ := 1
  core_mach : ℚ := 3/10
  bypass_mach : ℚ := 3/10
  deriving DecidableEq, Repr

/-- `Splitter.add_element`: registers a `pyc.Splitter` and, in design mode,
seeds the BPR and the two branch Mach defaults. -/
def Splitter.add_element (s : Splitter) (cy : Cycle) (design : Bool) : Cycle :=
  let cy1 := cy.addModule s.name { kind := "Splitter", design := design, elements := "AIR_ELEMENTS" }
  if design then
    ((cy1.setInputDefault (s.name ++ ".BPR") s.bpr).setInputDefault
      (s.name ++ ".MN1") s.core_mach).setInputDefault (s.name ++ ".MN2") s.bypass_mach
  else cy1

/-- `Splitter.connect`: the core edge from port `Fl_O1`, then the bypass edge
from port `Fl_O2`, each via `_connect_flow_target`. -/
def Splitter.connect (s : Splitter) (cy : Cycle) : Cycle :=
  connect_flow_target (connect_flow_target cy s.name s.target_core "Fl_O1")
    s.name s.target_bypass "Fl_O2"

/-- `Splitter.connect_des_od`: one design/off-design area link per branch. -/
def Splitter.connect_des_od (s : Splitter) (mp : MPCycle) : MPCycle :=
  (mp.connectDesOd (s.name ++ ".Fl_O1:stat:area") (s.name ++ ".area1")).connectDesOd
    (s.name ++ ".Fl_O2:stat:area") (s.name ++ ".area2")

/-- `Mixer`: dataclass fields `name, source_1, source_2, target, mach` plus
the object identity. -/
structure Mixer where
  id : Nat
  name : String
  source_1 : Option ElemRef := none
  source_2 : Option ElemRef := none
  target : Option ElemRef := none
  mach : ℚ := 3/10
  deriving DecidableEq, Repr

/-- `Mixer.add_element`: registers a `pyc.Mixer`. -/
def Mixer.add_element (m : Mixer) (cy : Cycle) (design : Bool) : Cycle :=
  cy.addModule m.name { kind := "Mixer", design := design, elements := "AIR_FUEL_ELEMENTS/AIR_ELEMENTS" }

/-- `Mixer.connect`: only the target edge via `_connect_flow_target`. -/
def Mixer.connect (m : Mixer) (cy : Cycle) : Cycle :=
  connect_flow_target cy m.name m.target

/-- `Mixer.connect_des_od`: merged-flow area and calculated-static area links
(the second off-design path is `<name>Fl_I1_stat_calc.area`, with no dot after
the element name, exactly as in the source). -/
def Mixer.connect_des_od (m : Mixer) (mp : MPCycle) : MPCycle :=
  (mp.connectDesOd (m.name ++ ".Fl_O:stat:area") (m.name ++ ".area1")).connectDesOd
    (m.name ++ ".Fl_I1_calc:stat:area") (m.name ++ "Fl_I1_stat_calc.area")

/-- `BleedInter`: dataclass fields `name, target, target_bleed, mach,
source_frac_w, target_frac_p, fuel_in_air, bleed_names` plus the object
identity.  `target_bleed` is a plain string naming the receiving element
(default `None`). -/
structure BleedInter where
  id : Nat
  name : String
  target : Option ElemRef := none
  target_bleed : Option String := none
  mach : ℚ := 3/10
  source_frac_w : ℚ := 1/20
  target_frac_p : ℚ := 1
  fuel_in_air : Bool := false
  bleed_names : List String := []
  deriving DecidableEq, Repr

/-- `BleedInter.add_element`: registers a `pyc.BleedOut` with the bleed port
names. -/
def BleedInter.add_element (b : BleedInter) (cy : Cycle) (design : Bool) : Cycle :=
  cy.addModule b.name
    { kind := "BleedOut", design := design
      elements := if b.fuel_in_air then "AIR_FUEL_ELEMENTS" else "AIR_ELEMENTS"
      bleedNames := b.bleed_names }

/-- `BleedInter.connect`: with no target the main outflow connects to the
cycle exit `fc.Fl_I`; otherwise the target edge plus one bleed edge per bleed
name to the element named by `target_bleed` (formatted with Python `%s`, so a
`None` `target_bleed` appears literally as `"None"`). -/
def BleedInter.connect (b : BleedInter) (cy : Cycle) : Cycle :=
  match b.target with
  | none => cy.addFlow { src := b.name ++ ".Fl_O", dst := "fc.Fl_I", connect_w := false }
  | some _ =>
    b.bleed_names.foldl
      (fun acc bn => acc.addFlow
        { src := b.name ++ "." ++ bn, dst := pyStr b.target_bleed ++ "." ++ bn
          connect_stat := false })
      (connect_flow_target cy b.name b.target)

/-- `BleedInter.add_cycle_params`: nothing with no target; otherwise, per
bleed name, the source mass-fraction parameter and the target
pressure-fraction parameter. -/
def BleedInter.add_cycle_params (b : BleedInter) (mp : MPCycle) : MPCycle :=
  match b.target with
  | none => mp
  | some _ =>
    b.bleed_names.foldl
      (fun acc bn =>
        (acc.addCycleParam (b.name ++ "." ++ bn ++ ":frac_W") b.source_frac_w).addCycleParam
          (pyStr b.target_bleed ++ "." ++ bn ++ ":frac_P") b.target_frac_p)
      mp

/-- `BleedInter.connect_des_od`: the exit-area link, declared unconditionally
(no check of `target`). -/
def BleedInter.connect_des_od (b : BleedInter) (mp : MPCycle) : MPCycle :=
  mp.connectDesOd (b.name ++ ".Fl_O:stat:area") (b.name ++ ".area")

/-- `BleedIntra`: dataclass fields `name, source, target, mach,
source_frac_w, source_frac_p, source_frac_work, target_frac_p, fuel_in_air,
bleed_names` plus the object identity. -/
structure BleedIntra where
  id : Nat
  name : String
  source : Option ElemRef := none
  target : Option ElemRef := none
  mach : ℚ := 3/10
  source_frac_w : ℚ := 1/20
  source_frac_p : ℚ := 1
  source_frac_work : ℚ := 1
  target_frac_p : ℚ := 1
  fuel_in_air : Bool := false
  bleed_names : List String := []
  deriving DecidableEq, Repr

/-- `BleedIntra.add_element`: the body is `pass` — no module is registered,
the container is returned untouched. -/
def BleedIntra.add_element (_ : BleedIntra) (cy : Cycle) (_ : Bool) : Cycle := cy

/-- `BleedIntra.connect`: with no target the (never realized) outflow is
connected to `fc.Fl_I`; otherwise one bleed edge per bleed name from the
source element's port to the target element's port.  Reading `.name` off a
`None` source inside the loop raises `AttributeError`, modelled as `none`. -/
def BleedIntra.connect (b : BleedIntra) (cy : Cycle) : Option Cycle :=
  match b.target with
  | none => some (cy.addFlow { src := b.name ++ ".Fl_O", dst := "fc.Fl_I", connect_w := false })
  | some t =>
    b.bleed_names.foldlM
      (fun acc bn =>
        match b.source with
        | none => none
        | some s => some (acc.addFlow
            { src := s.name ++ "." ++ bn, dst := t.name ++ "." ++ bn, connect_stat := false }))
      cy

/-- `BleedIntra.add_cycle_params`: nothing with no target; otherwise, per
bleed name, three source parameters (mass fraction `:frac_W`, pressure
fraction `:frac_P`, work fraction `:frac_work`) and the target pressure
fraction `:frac_P`.  Reading `.name` off a `None` source inside the loop
raises `AttributeError`, modelled as `none`. -/
def BleedIntra.add_cycle_params (b : BleedIntra) (mp : MPCycle) : Option MPCycle :=
  match b.target with
  | none => some mp
  | some t =>
    b.bleed_names.foldlM
      (fun acc bn =>
        match b.source with
        | none => none
        | some s => some
            ((((acc.addCycleParam (s.name ++ "." ++ bn ++ ":frac_W") b.source_frac_w).addCycleParam
              (s.name ++ "." ++ bn ++ ":frac_P") b.source_frac_p).addCycleParam
              (s.name ++ "." ++ bn ++ ":frac_work") b.source_frac_work).addCycleParam
              (t.name ++ "." ++ bn ++ ":frac_P") b.target_frac_p))
      mp

/-- `BleedIntra.connect_des_od`: the body is `pass` (the area link is
commented out in the source) — the container is returned untouched. -/
def BleedIntra.connect_des_od (_ : BleedIntra) (mp : MPCycle) : MPCycle := mp

/-- `NozzleType` enum. -/
inductive NozzleType where
  | CV
  | CD
  | CV_CD
  deriving DecidableEq, Repr

/-- The `.value` of a `NozzleType` member (note `CV_CD.value = 'CD_CV'`,
exactly as in the source). -/
def NozzleType.value : NozzleType → String
  | .CV => "CV"
  | .CD => "CD"
  | .CV_CD => "CD_CV"

/-- `Nozzle`: dataclass fields `name, target, type, v_loss_coefficient,
fuel_in_air, flow_out` plus the object identity. -/
structure Nozzle where
  id : Nat
  name : String
  target : Option ElemRef := none
  type : NozzleType := .CV
  v_loss_coefficient : ℚ := 1
  fuel_in_air : Bool := true
  flow_out : Option String := none
  deriving DecidableEq, Repr

/-- `Nozzle.add_element`: registers a `pyc.Nozzle` with the selected nozzle
type. -/
def Nozzle.add_element (n : Nozzle) (cy : Cycle) (_ : Bool) : Cycle :=
  cy.addModule n.name
    { kind := "Nozzle", nozzType := n.type.value
      elements := if n.fuel_in_air then "AIR_FUEL_ELEMENTS" else "AIR_ELEMENTS" }

/-- `Nozzle.connect`: with no target the ambient static pressure is wired to
`<name>.Ps_exhaust` by a direct `cycle.connect`; otherwise the target edge via
`_connect_flow_target` with `in_flow=self.flow_out` (a `None` `flow_out`
formats as the literal text `"None"`). -/
def Nozzle.connect (n : Nozzle) (cy : Cycle) : Cycle :=
  match n.target with
  | none => cy.addConn "fc.Fl_O:stat:P" (n.name ++ ".Ps_exhaust")
  | some _ => connect_flow_target cy n.name n.target "Fl_O" (pyStr n.flow_out)

/-- `Nozzle.add_cycle_params`: the velocity-loss-coefficient parameter. -/
def Nozzle.add_cycle_params (n : Nozzle) (mp : MPCycle) : MPCycle :=
  mp.addCycleParam (n.name ++ ".Cv") n.v_loss_coefficient

/-- `Nozzle.connect_des_od`: the body is `pass` — no link. -/
def Nozzle.connect_des_od (_ : Nozzle) (mp : MPCycle) : MPCycle := mp

/-! ## Turbomachinery elements (`turbomachinery.py`)

`BaseTurboMachinery.__post_init__` initializes the private shaft
back-reference to `None`; `Shaft.__post_init__` later sets it.  The
back-reference is modelled as an `Option ElemRef` field holding the bound
shaft's identity and name (the code only ever reads `self.shaft.name`),
and, for the construction-time binding protocol itself, as an explicit
mutable state `ShaftState` from element identity to bound shaft identity. -/

/-- `CompressorMap` enum. -/
inductive CompressorMap where
  | AXI_5
  | LPC
  | HPC
  deriving DecidableEq, Repr

/-- The `.value` of a `CompressorMap` member (the pyCycle map-data name). -/
def CompressorMap.value : CompressorMap → String
  | .AXI_5 => "AXI5"
  | .LPC => "LPCMap"
  | .HPC => "HPCMap"

/-- `Compressor`: dataclass fields `name, target, map, mach, pr, eff` plus
the object identity and the shaft back-reference (`None` until a `Shaft`
binds it). -/
structure Compressor where
  id : Nat
  name : String
  target : Option ElemRef := none
  map : CompressorMap := .AXI_5
  mach : ℚ := 1/100
  pr : ℚ := 5
  eff : ℚ := 1
  shaft : Option ElemRef := none
  deriving DecidableEq, Repr

/-- `Compressor.add_element`: raises `UnboundTurbomachinery` when the shaft
back-reference is still `None`, before touching the container (the error
carries the container unchanged); otherwise registers a `pyc.Compressor`
with the selected map, promoting `Nmech` to `<shaft>_Nmech`, and in design
mode seeds the reference Mach default. -/
def Compressor.add_element (c : Compressor) (cy : Cycle) (design : Bool) :
    Except (ArchError × Cycle) Cycle :=
  match c.shaft with
  | none => Except.error (ArchError.unboundTurbomachinery, cy)
  | some sh =>
    let cy1 := cy.addModule c.name
      { kind := "Compressor", mapData := c.map.value, design := design, elements := "AIR_MIX" }
      [("Nmech", sh.name ++ "_Nmech")]
    Except.ok (if design then cy1.setInputDefault (c.name ++ ".MN") c.mach else cy1)

/-- `Compressor.connect`: only the target edge via `_connect_flow_target`. -/
def Compressor.connect (c : Compressor) (cy : Cycle) : Cycle :=
  connect_flow_target cy c.name c.target

/-- `Compressor.connect_des_od`: one link per scale factor in
`['s_PR', 's_Wc', 's_eff', 's_Nc']`, with the same `<name>.<param>` path on
both sides, then the exit-area link `<name>.Fl_O:stat:area` to
`<name>.area`. -/
def Compressor.connect_des_od (c : Compressor) (mp : MPCycle) : MPCycle :=
  (["s_PR", "s_Wc", "s_eff", "s_Nc"].foldl
    (fun acc param => acc.connectDesOd (c.name ++ "." ++ param) (c.name ++ "." ++ param))
    mp).connectDesOd (c.name ++ ".Fl_O:stat:area") (c.name ++ ".area")

/-- `Compressor.set_problem_values`: pushes the literal pressure ratio and
efficiency into the design-point input slots. -/
def Compressor.set_problem_values (c : Compressor) (p : Problem) (des_con_name : String) : Problem :=
  (p.setVal (des_con_name ++ "." ++ c.name ++ ".PR") c.pr).setVal
    (des_con_name ++ "." ++ c.name ++ ".eff") c.eff

/-- `FuelType` enum. -/
inductive FuelType where
  | JET_A
  | JP_7
  deriving DecidableEq, Repr

/-- The `.value` of a `FuelType` member. -/
def FuelType.value : FuelType → String
  | .JET_A => "Jet-A(g)"
  | .JP_7 => "JP-7"

/-- `Burner`: dataclass fields `name, target, fuel, mach, p_loss_frac` plus
the object identity. -/
structure Burner where
  id : Nat
  name : String
  target : Option ElemRef := none
  fuel : FuelType := .JET_A
  mach : ℚ := 1/100
  p_loss_frac : ℚ := 0
  deriving DecidableEq, Repr

/-- `Burner.add_element`: registers a `pyc.Combustor` with the selected fuel
type and in design mode seeds the reference Mach default. -/
def Burner.add_element (b : Burner) (cy : Cycle) (design : Bool) : Cycle :=
  let cy1 := cy.addModule b.name
    { kind := "Combustor", design := design, elements := "AIR_MIX/AIR_FUEL_MIX"
      fuelType := b.fuel.value }
  if design then cy1.setInputDefault (b.name ++ ".MN") b.mach else cy1

/-- `Burner.connect`: only the target edge via `_connect_flow_target`. -/
def Burner.connect (b : Burner) (cy : Cycle) : Cycle :=
  connect_flow_target cy b.name b.target

/-- `Burner.add_cycle_params`: the pressure-loss-fraction parameter. -/
def Burner.add_cycle_params (b : Burner) (mp : MPCycle) : MPCycle :=
  mp.addCycleParam (b.name ++ ".dPqP") b.p_loss_frac

/-- `Burner.connect_des_od`: design exit area to off-design fixed area. -/
def Burner.connect_des_od (b : Burner) (mp : MPCycle) : MPCycle :=
  mp.connectDesOd (b.name ++ ".Fl_O:stat:area") (b.name ++ ".area")

/-- `TurbineMap` enum. -/
inductive TurbineMap where
  | LPT_2269
  | LPT
  | HPT
  deriving DecidableEq, Repr

/-- The `.value` of a `TurbineMap` member (the pyCycle map-data name). -/
def TurbineMap.value : TurbineMap → String
  | .LPT_2269 => "LPT2269"
  | .LPT => "LPTMap"
  | .HPT => "HPTMap"

/-- `Turbine`: dataclass fields `name, target, map, mach, eff` plus the
object identity and the shaft back-reference. -/
structure Turbine where
  id : Nat
  name : String
  target : Option ElemRef := none
  map : TurbineMap := .LPT_2269
  mach : ℚ := 2/5
  eff : ℚ := 1
  shaft : Option ElemRef := none
  deriving DecidableEq, Repr

/-- `Turbine.add_element`: raises `UnboundTurbomachinery` when the shaft
back-reference is still `None`, before touching the container; otherwise
registers a `pyc.Turbine` with the selected map, promoting `Nmech` to
`<shaft>_Nmech`, and in design mode seeds the reference Mach default. -/
def Turbine.add_element (t : Turbine) (cy : Cycle) (design : Bool) :
    Except (ArchError × Cycle) Cycle :=
  match t.shaft with
  | none => Except.error (ArchError.unboundTurbomachinery, cy)
  | some sh =>
    let cy1 := cy.addModule t.name
      { kind := "Turbine", mapData := t.map.value, design := design, elements := "AIR_FUEL_MIX" }
      [("Nmech", sh.name ++ "_Nmech")]
    Except.ok (if design then cy1.setInputDefault (t.name ++ ".MN") t.mach else cy1)

/-- `Turbine.connect`: only the target edge via `_connect_flow_target`. -/
def Turbine.connect (t : Turbine) (cy : Cycle) : Cycle :=
  connect_flow_target cy t.name t.target

/-- `Turbine.connect_des_od`: one link per scale factor in
`['s_PR', 's_Wp', 's_eff', 's_Np']`, with the same `<name>.<param>` path on
both sides, then the exit-area link. -/
def Turbine.connect_des_od (t : Turbine) (mp : MPCycle) : MPCycle :=
  (["s_PR", "s_Wp", "s_eff", "s_Np"].foldl
    (fun acc param => acc.connectDesOd (t.name ++ "." ++ param) (t.name ++ "." ++ param))
    mp).connectDesOd (t.name ++ ".Fl_O:stat:area") (t.name ++ ".area")

/-- `Turbine.set_problem_values`: pushes the literal efficiency into the
design-point input slot. -/
def Turbine.set_problem_values (t : Turbine) (p : Problem) (des_con_name : String) : Problem :=
  p.setVal (des_con_name ++ "." ++ t.name ++ ".eff") t.eff

/-- `Shaft`: dataclass fields `name, connections, rpm_design, power_loss`
plus the object identity.  `connections` defaults to `None` in the source. -/
structure Shaft where
  id : Nat
  name : String
  connections : Option (List ElemRef) := none
  rpm_design : ℚ := 10000
  power_loss : ℚ := 0
  deriving DecidableEq, Repr

/-- `Shaft.add_element`: raises `InvalidShaftTopology` when `connections` is
`None` or holds fewer than two elements, before touching the container;
otherwise registers a `pyc.Shaft` with one torque port per connection
(`num_ports=len(connections)`), promoting `Nmech` to `<name>_Nmech`, and in
design mode seeds the design rotational-speed default for `<name>_Nmech`. -/
def Shaft.add_element (sh : Shaft) (cy : Cycle) (design : Bool) :
    Except (ArchError × Cycle) Cycle :=
  match sh.connections with
  | none => Except.error (ArchError.invalidShaftTopology, cy)
  | some conns =>
    if conns.length < 2 then Except.error (ArchError.invalidShaftTopology, cy)
    else
      let cy1 := cy.addModule sh.name { kind := "Shaft", numPorts := conns.length }
        [("Nmech", sh.name ++ "_Nmech")]
      Except.ok (if design then cy1.setInputDefault (sh.name ++ "_Nmech") sh.rpm_design else cy1)

/-- `Shaft.connect`: one direct connection per bound element, from its `trq`
output to the indexed torque port `trq_<i>` on the shaft.  Iterating a `None`
`connections` would raise `TypeError`, modelled as `none`. -/
def Shaft.connect (sh : Shaft) (cy : Cycle) : Option Cycle :=
  match sh.connections with
  | none => none
  | some conns =>
    some ((conns.enum).foldl
      (fun acc ie => acc.addConn (ie.2.name ++ ".trq") (sh.name ++ ".trq_" ++ toString ie.1))
      cy)

/-- `Shaft.add_cycle_params`: the power-loss-fraction parameter. -/
def Shaft.add_cycle_params (sh : Shaft) (mp : MPCycle) : MPCycle :=
  mp.addCycleParam (sh.name ++ ".fracLoss") sh.power_loss

/-- `Shaft.connect_des_od`: the body is `pass` — no link. -/
def Shaft.connect_des_od (_ : Shaft) (mp : MPCycle) : MPCycle := mp

/-! ## The `Shaft.__post_init__` binding protocol

The mutable shaft back-references of all turbomachinery elements are
modelled as one explicit state mapping an element's identity to the identity
of the shaft bound to it (`none` = the `BaseTurboMachinery.__post_init__`
default).  `Shaft.__post_init__` walks its connections list in order: at the
first connection whose back-reference is already set it raises
`DuplicateShaftBinding` (the `ValueError('Shaft already set: ...')`), leaving
all mutations made so far in place; otherwise it sets the connection's
back-reference to the new shaft. -/

/-- The global shaft back-reference state: element identity to the identity of
the shaft currently bound to it. -/
abbrev ShaftState := Nat → Option Nat

/-- `conn.shaft = self`: one back-reference assignment. -/
def setShaft (s : ShaftState) (connId shaftId : Nat) : ShaftState :=
  fun x => if x = connId then some shaftId else s x

/-- The loop body of `Shaft.__post_init__`, carrying the running position of
the connection being processed.  On error the result carries the error kind,
the state at the moment of the raise, and the failing position. -/
def bindConnectionsAux (shaftId : Nat) (conns : List Nat) (s : ShaftState) (i : Nat) :
    Except (ArchError × ShaftState × Nat) ShaftState :=
  match conns with
  | [] => Except.ok s
  | c :: rest =>
    if (s c).isSome then Except.error (ArchError.duplicateShaftBinding, s, i)
    else bindConnectionsAux shaftId rest (setShaft s c shaftId) (i + 1)

/-- `Shaft.__post_init__`, run at construction of the shaft with identity
`shaftId` over the identities of its connections. -/
def shaft_post_init (shaftId : Nat) (conns : List Nat) (s : ShaftState) :
    Except (ArchError × ShaftState × Nat) ShaftState :=
  bindConnectionsAux shaftId conns s 0

/-! ## Concrete instances used to evaluate the definitions -/

/-- An empty cycle container. -/
def cy0 : Cycle := {}

/-- An empty multi-point container. -/
def mp0 : MPCycle := {}

/-- An inlet with identity 0 and all dataclass fields at their defaults. -/
def inletA : Inlet := { id := 0, name := "inlet" }

/-- A second, distinct inlet instance (identity 1) with field values
identical to `inletA`. -/
def inletB : Inlet := { id := 1, name := "inlet" }

/-- An architecture instance with identity 0. -/
def archA : TurbofanArchitecture := { id := 0, elements := [2, 3] }

/-- A second, distinct architecture instance (identity 1) holding an element
list identical to `archA`. -/
def archB : TurbofanArchitecture := { id := 1, elements := [2, 3] }

/-- A reference to a shaft named `shaft`. -/
def shaftRefA : ElemRef := { id := 40, name := "shaft" }

/-- A compressor whose shaft back-reference is still unset. -/
def compNoShaft : Compressor := { id := 20, name := "compressor" }

/-- A compressor bound to `shaftRefA`. -/
def compBound : Compressor := { id := 20, name := "compressor", shaft := some shaftRefA }

/-- A turbine whose shaft back-reference is still unset. -/
def turbNoShaft : Turbine := { id := 21, name := "turbine" }

/-- A turbine bound to `shaftRefA`. -/
def turbBound : Turbine := { id := 21, name := "turbine", shaft := some shaftRefA }

/-- A back-reference state in which only the element with identity 5 is
already bound (to the shaft with identity 99). -/
def s0Bound : ShaftState := fun x => if x = 5 then some 99 else none

/-- The state `Shaft.__post_init__` leaves behind when the shaft with
identity 7 is constructed over connections `[1, 2, 5, 3]` starting from
`s0Bound`: elements 1 and 2 have been bound to shaft 7 before the raise at
position 2. -/
def sAfterFail : ShaftState := setShaft (setShaft s0Bound 1 7) 2 7

/-- A shaft with a single connection. -/
def shaftOneConn : Shaft :=
  { id := 41, name := "shaft", connections := some [{ id := 20, name := "compressor" }] }

/-- A shaft with two connections. -/
def shaftTwoConn : Shaft :=
  { id := 41, name := "shaft"
    connections := some [{ id := 20, name := "compressor" }, { id := 21, name := "turbine" }] }

/-- An inter-module bleed with no downstream target. -/
def bleedInterNoTgt : BleedInter := { id := 50, name := "bleed_inter" }

/-- An intra-module bleed with source and target elements but an empty bleed
name list. -/
def bleedIntraEmptyEx : BleedIntra :=
  { id := 51, name := "bleed_intra"
    source := some { id := 20, name := "compressor" }
    target := some { id := 21, name := "turbine" } }

/-- An intra-module bleed with source and target elements and one bleed
name. -/
def bleedIntraOneEx : BleedIntra :=
  { id := 52, name := "bleed_intra"
    source := some { id := 20, name := "compressor" }
    target := some { id := 21, name := "turbine" }
    bleed_names := ["bld"] }

/-- A duct with no target. -/
def ductNoTgt : Duct := { id := 60, name := "duct" }

/-- A splitter with neither branch target set. -/
def splitterNoTgt : Splitter := { id := 61, name := "splitter" }

/-- A mixer with no target. -/
def mixerNoTgt : Mixer := { id := 62, name := "mixer" }

/-- A burner with no target. -/
def burnerNoTgt : Burner := { id := 63, name := "burner" }

/-! ## Claim theorems -/

/-- C1 counterexample: `inletA` and `inletB` are distinct instances
(different identities) with identical field values, yet the
dataclass-generated equality returns `true`, not `false` — element equality
is value-based, refuting the claim as stated. -/
theorem C1_counterexample :
    inletA.id ≠ inletB.id ∧ inletA.name = inletB.name ∧ inletA.target = inletB.target ∧
      inletA.mach = inletB.mach ∧ inletA.p_recovery = inletB.p_recovery ∧
      Inlet.pyEq inletA inletB = true := by
  refine ⟨by decide, rfl, rfl, rfl, rfl, ?_⟩
  simp [inletA, inletB, Inlet.pyEq]

/-- C1 (amended): element equality is the dataclass-generated value
comparison — any two `Inlet` instances with identical field values compare
equal, regardless of identity; only the base class `ArchElement` keeps the
identity-based hash `id(self)`, while the `@dataclass`-decorated concrete
classes end up with `__hash__ = None` (unhashable), so no element hash is
ever derived from field contents. -/
theorem C1_element_equality_value_based :
    (∀ a b : Inlet, a.name = b.name → a.target = b.target → a.mach = b.mach →
      a.p_recovery = b.p_recovery → Inlet.pyEq a b = true) ∧
    (∀ e : ArchElement, e.pyHash = e.id) ∧
    (∀ i : Inlet, i.pyHash = none) := by
  refine ⟨?_, fun _ => rfl, fun _ => rfl⟩
  intro a b h1 h2 h3 h4
  simp [Inlet.pyEq, h1, h2, h3, h4]

/-- C1 witness: the amended statement evaluated on `inletA`/`inletB`. -/
theorem C1_witness :
    Inlet.pyEq inletA inletB = true ∧ ArchElement.pyHash { id := 9, name := "e" } = 9 ∧
      Inlet.pyHash inletA = none :=
  ⟨C1_element_equality_value_based.1 inletA inletB rfl rfl rfl rfl,
    C1_element_equality_value_based.2.1 { id := 9, name := "e" },
    C1_element_equality_value_based.2.2 inletA⟩

/-- C2: `TurbofanArchitecture.__eq__` compares `hash(self)` with
`hash(other)`, i.e. the object identities — two distinct architecture
instances compare unequal whatever their element lists, and an architecture
compares equal to itself. -/
theorem C2_architecture_equality_identity_based :
    (∀ a b : TurbofanArchitecture, a.id ≠ b.id → TurbofanArchitecture.pyEq a b = false) ∧
    (∀ a : TurbofanArchitecture, TurbofanArchitecture.pyEq a a = true) := by
  constructor
  · intro a b h
    simpa [TurbofanArchitecture.pyEq, TurbofanArchitecture.pyHash] using h
  · intro a
    simp [TurbofanArchitecture.pyEq]

/-- C2 witness: `archA` and `archB` are distinct instances with identical
element lists and compare unequal; `archA` compares equal to itself. -/
theorem C2_witness :
    TurbofanArchitecture.pyEq archA archB = false ∧
      TurbofanArchitecture.pyEq archA archA = true :=
  ⟨C2_architecture_equality_identity_based.1 archA archB (by decide),
    C2_architecture_equality_identity_based.2 archA⟩

/-- C3: realizing a `Compressor` or `Turbine` whose shaft back-reference is
`None` raises `UnboundTurbomachinery` with the container untouched (no module
registered); with a bound shaft `add_element` succeeds. -/
theorem C3_unbound_turbomachinery :
    (∀ (c : Compressor) (cy : Cycle) (d : Bool), c.shaft = none →
      Compressor.add_element c cy d = Except.error (ArchError.unboundTurbomachinery, cy)) ∧
    (∀ (c : Compressor) (cy : Cycle) (d : Bool) (sh : ElemRef), c.shaft = some sh →
      ∃ cy2, Compressor.add_element c cy d = Except.ok cy2) ∧
    (∀ (t : Turbine) (cy : Cycle) (d : Bool), t.shaft = none →
      Turbine.add_element t cy d = Except.error (ArchError.unboundTurbomachinery, cy)) ∧
    (∀ (t : Turbine) (cy : Cycle) (d : Bool) (sh : ElemRef), t.shaft = some sh →
      ∃ cy2, Turbine.add_element t cy d = Except.ok cy2) := by
  refine ⟨fun c cy d h => ?_, fun c cy d sh h => ?_, fun t cy d h => ?_, fun t cy d sh h => ?_⟩
  · simp [Compressor.add_element, h]
  · simp only [Compressor.add_element, h]
    exact ⟨_, rfl⟩
  · simp [Turbine.add_element, h]
  · simp only [Turbine.add_element, h]
    exact ⟨_, rfl⟩

/-- C3 witness: the unbound compressor and turbine fail with the container
untouched; the bound ones succeed (design mode). -/
theorem C3_witness :
    Compressor.add_element compNoShaft cy0 true
        = Except.error (ArchError.unboundTurbomachinery, cy0) ∧
      (∃ cy2, Compressor.add_element compBound cy0 true = Except.ok cy2) ∧
      Turbine.add_element turbNoShaft cy0 true
        = Except.error (ArchError.unboundTurbomachinery, cy0) ∧
      (∃ cy2, Turbine.add_element turbBound cy0 true = Except.ok cy2) :=
  ⟨C3_unbound_turbomachinery.1 compNoShaft cy0 true rfl,
    C3_unbound_turbomachinery.2.1 compBound cy0 true shaftRefA rfl,
    C3_unbound_turbomachinery.2.2.1 turbNoShaft cy0 true rfl,
    C3_unbound_turbomachinery.2.2.2 turbBound cy0 true shaftRefA rfl⟩

/-- C5: realizing a `Shaft` whose connections list is `None` or holds fewer
than two elements raises `InvalidShaftTopology` with the container untouched;
with two or more connections realization succeeds and registers a shaft
module with one torque port per connection (`num_ports = len(connections)`). -/
theorem C5_shaft_topology :
    (∀ (sh : Shaft) (cy : Cycle) (d : Bool), sh.connections = none →
      Shaft.add_element sh cy d = Except.error (ArchError.invalidShaftTopology, cy)) ∧
    (∀ (sh : Shaft) (cy : Cycle) (d : Bool) (conns : List ElemRef),
      sh.connections = some conns → conns.length < 2 →
      Shaft.add_element sh cy d = Except.error (ArchError.invalidShaftTopology, cy)) ∧
    (∀ (sh : Shaft) (cy : Cycle) (d : Bool) (conns : List ElemRef),
      sh.connections = some conns → 2 ≤ conns.length →
      ∃ cy2, Shaft.add_element sh cy d = Except.ok cy2 ∧
        cy2.modules.lookup sh.name = some { kind := "Shaft", numPorts := conns.length }) := by
  refine ⟨fun sh cy d h => ?_, fun sh cy d conns h h2 => ?_, fun sh cy d conns h h2 => ?_⟩
  · simp [Shaft.add_element, h]
  · simp [Shaft.add_element, h, h2]
  · simp only [Shaft.add_element, h]
    rw [if_neg (Nat.not_lt.mpr h2)]
    refine ⟨_, rfl, ?_⟩
    cases d <;> simp [Cycle.addModule, Cycle.setInputDefault, List.lookup]

/-- C5 witness: a one-connection shaft fails with the container untouched; a
two-connection shaft realizes a module with two torque ports. -/
theorem C5_witness :
    Shaft.add_element shaftOneConn cy0 true
        = Except.error (ArchError.invalidShaftTopology, cy0) ∧
      ∃ cy2, Shaft.add_element shaftTwoConn cy0 true = Except.ok cy2 ∧
        cy2.modules.lookup shaftTwoConn.name = some { kind := "Shaft", numPorts := 2 } :=
  ⟨C5_shaft_topology.2.1 shaftOneConn cy0 true _ rfl (by decide),
    C5_shaft_topology.2.2 shaftTwoConn cy0 true _ rfl (by decide)⟩

/-- C6 counterexample: for a concrete compressor, `connect_des_od` does
declare exactly five links, but the claim that each link uses identical path
suffixes on the design and off-design sides is false: the exit-area link
connects `compressor.Fl_O:stat:area` to `compressor.area`. -/
theorem C6_counterexample :
    (Compressor.connect_des_od compNoShaft mp0).desOdLinks.length = 5 ∧
      ∃ l ∈ (Compressor.connect_des_od compNoShaft mp0).desOdLinks, l.1 ≠ l.2 := by
  decide

/-- C6 (amended): `Compressor.connect_des_od` declares exactly five links, in
order: the four scale-factor links `s_PR`, `s_Wc`, `s_eff`, `s_Nc`, each with
the identical path `<name>.<param>` on both sides, then the exit-area link
whose design-side path `<name>.Fl_O:stat:area` differs from its
off-design-side path `<name>.area`; no cycle parameter is touched. -/
theorem C6_compressor_des_od_links (c : Compressor) (mp : MPCycle) :
    (Compressor.connect_des_od c mp).desOdLinks =
      mp.desOdLinks ++
        [(c.name ++ ".s_PR", c.name ++ ".s_PR"), (c.name ++ ".s_Wc", c.name ++ ".s_Wc"),
          (c.name ++ ".s_eff", c.name ++ ".s_eff"), (c.name ++ ".s_Nc", c.name ++ ".s_Nc"),
          (c.name ++ ".Fl_O:stat:area", c.name ++ ".area")] ∧
    (Compressor.connect_des_od c mp).cycleParams = mp.cycleParams := by
  constructor <;>
    simp [Compressor.connect_des_od, MPCycle.connectDesOd, List.foldl, List.append_assoc,
      String.append_assoc]

/-- C7 counterexample: a `BleedInter` with no downstream target still
declares the design/off-design exit-area link. -/
theorem C7_counterexample :
    bleedInterNoTgt.target = none ∧
      (BleedInter.connect_des_od bleedInterNoTgt mp0).desOdLinks =
        [("bleed_inter.Fl_O:stat:area", "bleed_inter.area")] :=
  ⟨rfl, rfl⟩

/-- C7 (amended): `BleedInter.connect_des_od` declares the exit-area link
unconditionally — whether or not a downstream target exists. -/
theorem C7_bleedinter_des_od_unconditional (b : BleedInter) (mp : MPCycle) :
    (BleedInter.connect_des_od b mp).desOdLinks =
      mp.desOdLinks ++ [(b.name ++ ".Fl_O:stat:area", b.name ++ ".area")] :=
  rfl

/-- Helper: once a connection is bound to the new shaft, the remainder of the
`Shaft.__post_init__` loop never unbinds it — the binding survives into the
state carried by a raise. -/
theorem bindConnectionsAux_preserves (shaftId : Nat) :
    ∀ (conns : List Nat) (s : ShaftState) (i0 : Nat) (e : ArchError) (s2 : ShaftState) (i : Nat),
      bindConnectionsAux shaftId conns s i0 = Except.error (e, s2, i) →
      ∀ x, s x = some shaftId → s2 x = some shaftId := by
  intro conns
  induction conns with
  | nil =>
    intro s i0 e s2 i h
    simp [bindConnectionsAux] at h
  | cons c rest ih =>
    intro s i0 e s2 i h x hx
    simp only [bindConnectionsAux] at h
    by_cases hc : (s c).isSome
    · rw [if_pos hc] at h
      simp only [Except.error.injEq, Prod.mk.injEq] at h
      obtain ⟨-, hs, -⟩ := h
      exact hs ▸ hx
    · rw [if_neg hc] at h
      refine ih _ _ _ _ _ h x ?_
      unfold setShaft
      by_cases hxc : x = c
      · simp [hxc]
      · simp [hxc, hx]

/-- Helper: when the `Shaft.__post_init__` loop raises, it raises at a
position past its starting index, within the list, and the state it leaves
behind maps every connection strictly before the failing position to the new
shaft. -/
theorem bindConnectionsAux_prefix_bound (shaftId : Nat) :
    ∀ (conns : List Nat) (s : ShaftState) (i0 : Nat) (e : ArchError) (s2 : ShaftState) (i : Nat),
      bindConnectionsAux shaftId conns s i0 = Except.error (e, s2, i) →
      i0 ≤ i ∧ i - i0 < conns.length ∧
        ∀ j, i0 ≤ j → j < i → s2 (conns.getD (j - i0) 0) = some shaftId := by
  intro conns
  induction conns with
  | nil =>
    intro s i0 e s2 i h
    simp [bindConnectionsAux] at h
  | cons c rest ih =>
    intro s i0 e s2 i h
    simp only [bindConnectionsAux] at h
    by_cases hc : (s c).isSome
    · rw [if_pos hc] at h
      simp only [Except.error.injEq, Prod.mk.injEq] at h
      obtain ⟨-, -, hi⟩ := h
      subst hi
      exact ⟨Nat.le_refl _, by simp, fun j hj1 hj2 => by omega⟩
    · rw [if_neg hc] at h
      obtain ⟨h1, h2, h3⟩ := ih _ _ _ _ _ h
      refine ⟨by omega, ?_, ?_⟩
      · simp only [List.length_cons]
        omega
      · intro j hj1 hj2
        by_cases hji : j = i0
        · subst hji
          simp only [Nat.sub_self, List.getD_cons_zero]
          exact bindConnectionsAux_preserves shaftId rest _ _ _ _ _ h c (by simp [setShaft])
        · have hj1' : i0 + 1 ≤ j := by omega
          have hidx : j - i0 = (j - (i0 + 1)) + 1 := by omega
          rw [hidx, List.getD_cons_succ]
          exact h3 j hj1' hj2

/-- Helper: a connection whose back-reference is already set when
`Shaft.__post_init__` starts makes the loop raise `DuplicateShaftBinding`. -/
theorem bindConnectionsAux_error_of_mem (shaftId : Nat) :
    ∀ (conns : List Nat) (s : ShaftState) (i0 : Nat) (e : Nat),
      (s e).isSome = true → e ∈ conns →
      ∃ s2 i, bindConnectionsAux shaftId conns s i0
          = Except.error (ArchError.duplicateShaftBinding, s2, i) := by
  intro conns
  induction conns with
  | nil =>
    intro s i0 e hb hm
    simp at hm
  | cons c rest ih =>
    intro s i0 e hb hm
    simp only [bindConnectionsAux]
    by_cases hc : (s c).isSome
    · rw [if_pos hc]
      exact ⟨s, i0, rfl⟩
    · rw [if_neg hc]
      have hec : e ≠ c := fun hh => hc (hh ▸ hb)
      have hm2 : e ∈ rest := by
        rcases List.mem_cons.mp hm with hh | hh
        · exact absurd hh hec
        · exact hh
      refine ih _ _ e ?_ hm2
      simp [setShaft, hec, hb]

/-- C4: constructing a `Shaft` whose connections contain an element already
bound to a shaft raises `DuplicateShaftBinding` during `__post_init__`,
i.e. at construction time of the second shaft. -/
theorem C4_duplicate_shaft_binding (shaftId : Nat) (conns : List Nat) (s : ShaftState) (e : Nat)
    (hbound : (s e).isSome = true) (hmem : e ∈ conns) :
    ∃ s2 i, shaft_post_init shaftId conns s
        = Except.error (ArchError.duplicateShaftBinding, s2, i) :=
  bindConnectionsAux_error_of_mem shaftId conns s 0 e hbound hmem

/-- C4 witness: constructing shaft 7 over connections `[1, 2, 5, 3]` when
element 5 is already bound (to shaft 99) raises `DuplicateShaftBinding`. -/
theorem C4_witness :
    ∃ s2 i, shaft_post_init 7 [1, 2, 5, 3] s0Bound
        = Except.error (ArchError.duplicateShaftBinding, s2, i) :=
  C4_duplicate_shaft_binding 7 [1, 2, 5, 3] s0Bound 5 (by decide) (by decide)

/-- C9: `Shaft.__post_init__` is not atomic — when it raises at position `i`,
the failing position lies inside the connections list and every connection at
a position before `i` has already had its back-reference set to the new
(failed) shaft in the state the raise leaves behind; nothing is rolled
back. -/
theorem C9_shaft_binding_not_rolled_back (shaftId : Nat) (conns : List Nat) (s : ShaftState)
    (e : ArchError) (s2 : ShaftState) (i : Nat)
    (h : shaft_post_init shaftId conns s = Except.error (e, s2, i)) :
    i < conns.length ∧ ∀ j, j < i → s2 (conns.getD j 0) = some shaftId := by
  obtain ⟨h1, h2, h3⟩ := bindConnectionsAux_prefix_bound shaftId conns s 0 e s2 i h
  refine ⟨by omega, fun j hj => ?_⟩
  simpa using h3 j (Nat.zero_le j) hj

/-- C9 witness: in the failed construction of shaft 7 over `[1, 2, 5, 3]`
(element 5 already bound), the raise happens at position 2 and the state left
behind has elements 1 and 2 — the connections before position 2 — bound to
shaft 7. -/
theorem C9_witness :
    sAfterFail ([1, 2, 5, 3].getD 0 0) = some 7 ∧
      sAfterFail ([1, 2, 5, 3].getD 1 0) = some 7 := by
  have h := C9_shaft_binding_not_rolled_back 7 [1, 2, 5, 3] s0Bound
    ArchError.duplicateShaftBinding sAfterFail 2 rfl
  exact ⟨h.2 0 (by decide), h.2 1 (by decide)⟩

/-- Helper: the per-bleed-name parameter loop of
`BleedIntra.add_cycle_params`, with the source and target names fixed,
appends exactly four parameters per bleed name. -/
theorem bleedIntra_params_append (sname tname : String) (fw fp fwork tfp : ℚ) :
    ∀ (names : List String) (mp : MPCycle),
      (List.foldlM (fun acc bn => some
          ((((acc.addCycleParam (sname ++ "." ++ bn ++ ":frac_W") fw).addCycleParam
            (sname ++ "." ++ bn ++ ":frac_P") fp).addCycleParam
            (sname ++ "." ++ bn ++ ":frac_work") fwork).addCycleParam
            (tname ++ "." ++ bn ++ ":frac_P") tfp))
        mp names : Option MPCycle) =
      some { mp with cycleParams := mp.cycleParams ++ names.flatMap (fun bn =>
        [(sname ++ "." ++ bn ++ ":frac_W", fw), (sname ++ "." ++ bn ++ ":frac_P", fp),
          (sname ++ "." ++ bn ++ ":frac_work", fwork), (tname ++ "." ++ bn ++ ":frac_P", tfp)]) } := by
  intro names
  induction names with
  | nil =>
    intro mp
    simp [List.foldlM]
  | cons bn rest ih =>
    intro mp
    simp only [List.foldlM, Option.bind_eq_bind, Option.some_bind]
    rw [ih]
    simp [MPCycle.addCycleParam, List.append_assoc]

/-- C8 counterexample: a `BleedIntra` whose target (and source) are present
but whose bleed-name list is empty registers zero parameters, not four — the
parameter count is four per bleed name, not four per element. -/
theorem C8_counterexample :
    bleedIntraEmptyEx.target.isSome = true ∧
      BleedIntra.add_cycle_params bleedIntraEmptyEx mp0 = some mp0 :=
  ⟨rfl, rfl⟩

/-- C8 (amended): `BleedIntra.add_element` registers no module regardless of
input values; `add_cycle_params` registers, per bleed name, the three source
parameters (`:frac_W`, `:frac_P`, `:frac_work`) and the target `:frac_P`
parameter — four per bleed name — when source and target are present, and
zero parameters when the target is `None`; `connect_des_od` declares no
link. -/
theorem C8_bleedintra_declares_params_only (b : BleedIntra) (cy : Cycle) (d : Bool)
    (mp : MPCycle) :
    BleedIntra.add_element b cy d = cy ∧
    (b.target = none → BleedIntra.add_cycle_params b mp = some mp) ∧
    (∀ s t, b.source = some s → b.target = some t →
      BleedIntra.add_cycle_params b mp = some
        { mp with cycleParams := mp.cycleParams ++ b.bleed_names.flatMap (fun bn =>
            [(s.name ++ "." ++ bn ++ ":frac_W", b.source_frac_w),
              (s.name ++ "." ++ bn ++ ":frac_P", b.source_frac_p),
              (s.name ++ "." ++ bn ++ ":frac_work", b.source_frac_work),
              (t.name ++ "." ++ bn ++ ":frac_P", b.target_frac_p)]) }) ∧
    BleedIntra.connect_des_od b mp = mp := by
  refine ⟨rfl, fun h => ?_, fun s t hs ht => ?_, rfl⟩
  · simp [BleedIntra.add_cycle_params, h]
  · simp only [BleedIntra.add_cycle_params, ht, hs]
    exact bleedIntra_params_append s.name t.name b.source_frac_w b.source_frac_p
      b.source_frac_work b.target_frac_p b.bleed_names mp

/-- C8 witness: the amended statement evaluated on a `BleedIntra` with one
bleed name — four parameters are registered, no module, no link. -/
theorem C8_witness :
    BleedIntra.add_element bleedIntraOneEx cy0 true = cy0 ∧
      BleedIntra.add_cycle_params bleedIntraOneEx mp0 = some
        { mp0 with cycleParams :=
            [("compressor.bld:frac_W", bleedIntraOneEx.source_frac_w),
              ("compressor.bld:frac_P", bleedIntraOneEx.source_frac_p),
              ("compressor.bld:frac_work", bleedIntraOneEx.source_frac_work),
              ("turbine.bld:frac_P", bleedIntraOneEx.target_frac_p)] } ∧
      BleedIntra.connect_des_od bleedIntraOneEx mp0 = mp0 := by
  have h := C8_bleedintra_declares_params_only bleedIntraOneEx cy0 true mp0
  exact ⟨h.1, h.2.2.1 { id := 20, name := "compressor" } { id := 21, name := "turbine" } rfl rfl,
    h.2.2.2⟩

/-- C10: every element wiring through `_connect_flow_target` (`Inlet`,
`Duct`, `Splitter` per branch, `Mixer`, `Compressor`, `Burner`, `Turbine`)
declares no flow edge for a connection whose target reference is `None`, and
its `connect` is total — it returns the container unchanged apart from the
element's other edges, raising no error. -/
theorem C10_missing_target_silently_skipped :
    (∀ (i : Inlet) (cy : Cycle), i.target = none →
      Inlet.connect i cy
        = cy.addFlow { src := "fc.Fl_O", dst := i.name ++ ".Fl_I", connect_w := false }) ∧
    (∀ (d : Duct) (cy : Cycle), d.target = none → Duct.connect d cy = cy) ∧
    (∀ (s : Splitter) (cy : Cycle), s.target_core = none →
      Splitter.connect s cy = connect_flow_target cy s.name s.target_bypass "Fl_O2") ∧
    (∀ (s : Splitter) (cy : Cycle), s.target_bypass = none →
      Splitter.connect s cy = connect_flow_target cy s.name s.target_core "Fl_O1") ∧
    (∀ (m : Mixer) (cy : Cycle), m.target = none → Mixer.connect m cy = cy) ∧
    (∀ (c : Compressor) (cy : Cycle), c.target = none → Compressor.connect c cy = cy) ∧
    (∀ (b : Burner) (cy : Cycle), b.target = none → Burner.connect b cy = cy) ∧
    (∀ (t : Turbine) (cy : Cycle), t.target = none → Turbine.connect t cy = cy) := by
  refine ⟨fun i cy h => ?_, fun d cy h => ?_, fun s cy h => ?_, fun s cy h => ?_,
    fun m cy h => ?_, fun c cy h => ?_, fun b cy h => ?_, fun t cy h => ?_⟩
  · simp [Inlet.connect, connect_flow_target, h]
  · simp [Duct.connect, connect_flow_target, h]
  · simp [Splitter.connect, connect_flow_target, h]
  · simp [Splitter.connect, connect_flow_target, h]
  · simp [Mixer.connect, connect_flow_target, h]
  · simp [Compressor.connect, connect_flow_target, h]
  · simp [Burner.connect, connect_flow_target, h]
  · simp [Turbine.connect, connect_flow_target, h]

/-- C10 witness: the conclusion evaluated on concrete target-less elements of
each kind. -/
theorem C10_witness :
    Inlet.connect inletA cy0
        = cy0.addFlow { src := "fc.Fl_O", dst := inletA.name ++ ".Fl_I", connect_w := false } ∧
      Duct.connect ductNoTgt cy0 = cy0 ∧
      Splitter.connect splitterNoTgt cy0
        = connect_flow_target cy0 splitterNoTgt.name splitterNoTgt.target_bypass "Fl_O2" ∧
      Splitter.connect splitterNoTgt cy0
        = connect_flow_target cy0 splitterNoTgt.name splitterNoTgt.target_core "Fl_O1" ∧
      Mixer.connect mixerNoTgt cy0 = cy0 ∧
      Compressor.connect compNoShaft cy0 = cy0 ∧
      Burner.connect burnerNoTgt cy0 = cy0 ∧
      Turbine.connect turbNoShaft cy0 = cy0 :=
  ⟨C10_missing_target_silently_skipped.1 inletA cy0 rfl,
    C10_missing_target_silently_skipped.2.1 ductNoTgt cy0 rfl,
    C10_missing_target_silently_skipped.2.2.1 splitterNoTgt cy0 rfl,
    C10_missing_target_silently_skipped.2.2.2.1 splitterNoTgt cy0 rfl,
    C10_missing_target_silently_skipped.2.2.2.2.1 mixerNoTgt cy0 rfl,
    C10_missing_target_silently_skipped.2.2.2.2.2.1 compNoShaft cy0 rfl,
    C10_missing_target_silently_skipped.2.2.2.2.2.2.1 burnerNoTgt cy0 rfl,
    C10_missing_target_silently_skipped.2.2.2.2.2.2.2 turbNoShaft cy0 rfl⟩

end OpenTurbArch
